import Mathlib

/-!
Verification development for the ibraheemca static-site build logic.

The embedded code consists of the two Gatsby build hooks of the repository:

* `onCreateNode` (gatsby/on-create-node.js): on every MarkdownRemark node it
  attaches a derived `slug` field (from an explicit frontmatter slug and the
  parent file node's relative directory, or else from the file path computed
  by `createFilePath`), an ordered `tagSlugs` list and a `mainTagSlug`, the
  latter two built with the lodash `kebabCase` transform.
* `createPages` (gatsby/create-pages.js): registers the fixed `/404` and
  `/tags` routes, then one route per non-draft markdown node whose frontmatter
  template is `page` or `post`, at the node's derived slug with
  context `{slug}`.
* the posts pagination module (gatsby/pagination/create-posts-pages.js) is
  required by `createPages` but its source file is not present here; it is
  modelled from the specification (see `createPostsPages`).
-/

/-- ASCII uppercase letter test, the character class A-Z of the lodash
word-splitting regular expressions. -/
def isAsciiUpper (c : Char) : Bool := decide (Char.ofNat 65 ≤ c) && decide (c ≤ Char.ofNat 90)

/-- ASCII lowercase letter test, the character class a-z. -/
def isAsciiLower (c : Char) : Bool := decide (Char.ofNat 97 ≤ c) && decide (c ≤ Char.ofNat 122)

/-- ASCII digit test, the character class 0-9. -/
def isAsciiDigit (c : Char) : Bool := decide (Char.ofNat 48 ≤ c) && decide (c ≤ Char.ofNat 57)

/-- Characters that belong to words; every other ASCII character is a break
character in the lodash word regexps (all ASCII punctuation and whitespace
falls inside the lodash break ranges). -/
def isWordChar (c : Char) : Bool := isAsciiUpper c || isAsciiLower c || isAsciiDigit c

/-- Word boundary between two adjacent word characters `a` and `b`, with
`la` the character following `b` (lookahead).  Mirrors the alternation of the
lodash `unicodeWords` regexp restricted to ASCII words: a split occurs at a
digit/letter transition, at a lower-to-upper transition, and inside an
uppercase run right before its last capital when that capital starts a
capitalised word (upper-upper-lower). -/
def splitBetween (a b : Char) (la : Option Char) : Bool :=
  (isAsciiDigit a != isAsciiDigit b)
  || (!isAsciiUpper a && isAsciiUpper b)
  || (isAsciiUpper a && isAsciiUpper b &&
      (match la with
       | some c => isAsciiLower c
       | none => false))

/-- Accumulating word splitter: `acc` is the current word reversed; break
characters end the current word, and `splitBetween` decides boundaries inside
runs of word characters. -/
def wordsAux : List Char → List Char → List (List Char)
  | acc, [] => if acc.isEmpty then [] else [acc.reverse]
  | acc, c :: rest =>
    if isWordChar c then
      match acc with
      | [] => wordsAux [c] rest
      | p :: _ =>
        if splitBetween p c rest.head? then
          acc.reverse :: wordsAux [c] rest
        else
          wordsAux (c :: acc) rest
    else
      if acc.isEmpty then wordsAux [] rest
      else acc.reverse :: wordsAux [] rest

/-- lodash `kebabCase` removes apostrophes (U+0027 and U+2019) before
splitting into words. -/
def removeApostrophes (s : String) : String :=
  String.mk (s.data.filter (fun c => !(c == Char.ofNat 39 || c == Char.ofNat 8217)))

/-- Model of the lodash `kebabCase` transform used by the node-creation hook
for tag slugs: split the (apostrophe-stripped) string into words, lowercase
each word and join with dashes.  Faithful to lodash on ASCII input (the
non-ASCII deburr step and the ordinal-number tokens of the unicode word
regexp are outside the model; every non-alphanumeric character is treated as
a break, which is exactly what the lodash break ranges do for ASCII). -/
def kebabCase (s : String) : String :=
  String.intercalate "-"
    ((wordsAux [] (removeApostrophes s).data).map (fun l => String.mk (l.map Char.toLower)))

/-- Value of a node field created by `createNodeField`: the slug fields are
strings, the tagSlugs field is a list of strings. -/
inductive FieldValue where
  | str (s : String)
  | strList (l : List String)
deriving DecidableEq

/-- Frontmatter fields of a markdown node read by the node-creation hook.
Absent frontmatter entries are `none`. -/
structure Frontmatter where
  slug : Option String
  tags : Option (List String)
  mainTag : Option String
deriving DecidableEq

/-- Input of the node-creation hook: the node's internal type, its
frontmatter, the `relativeDirectory` of the parent file node (what
`getNode(node.parent).relativeDirectory` returns), and the path the external
`createFilePath` helper derives from the file's location. -/
structure RemarkNode where
  internalType : String
  frontmatter : Frontmatter
  relativeDirectory : String
  filePath : String
deriving DecidableEq

/-- Embedding of the `onCreateNode` hook (gatsby/on-create-node.js).  It
returns the list of fields the hook attaches via `createNodeField`, in
creation order.  On a MarkdownRemark node: a `slug` field from the explicit
frontmatter slug (the JS guard is `typeof slug !== "undefined"`) composed
with the parent directory, otherwise from `createFilePath`; a `tagSlugs`
field when `frontmatter.tags` is defined (any array is truthy in JS,
including the empty one); a `mainTagSlug` field when `frontmatter.mainTag`
is truthy (a present, non-empty string). -/
def onCreateNode (node : RemarkNode) : List (String × FieldValue) :=
  if node.internalType = "MarkdownRemark" then
    (match node.frontmatter.slug with
      | some s => [("slug", FieldValue.str ("/" ++ node.relativeDirectory ++ "/" ++ s))]
      | none => [("slug", FieldValue.str node.filePath)]) ++
    (match node.frontmatter.tags with
      | some tags =>
        [("tagSlugs", FieldValue.strList (tags.map (fun tag => "/tag/" ++ kebabCase tag ++ "/")))]
      | none => []) ++
    (match node.frontmatter.mainTag with
      | some mainTag =>
        if mainTag = "" then []
        else [("mainTagSlug", FieldValue.str ("/tag/" ++ kebabCase mainTag ++ "/"))]
      | none => [])
  else []

/-- Shape of a markdown node as the `createPages` GraphQL query selects it:
the frontmatter template kind, the frontmatter draft flag (used by the
query filter `draft: { ne: true }`), and the slug field attached earlier by
the node-creation hook. -/
structure PageNode where
  template : Option String
  draft : Option Bool
  slug : String
deriving DecidableEq

/-- Context object passed to `createPage`: the fixed routes get an empty
context, per-node routes get `{ slug }`. -/
inductive RouteContext where
  | empty
  | slugCtx (slug : String)
deriving DecidableEq

/-- A route registered by `createPage`: URL path, template component and
context. -/
structure Page where
  path : String
  component : String
  context : RouteContext
deriving DecidableEq

def notFoundTemplate : String := "./src/templates/not-found-template.tsx"

def tagsListTemplate : String := "./src/templates/tags-list-template.tsx"

def pageTemplate : String := "./src/templates/page-template.tsx"

def postTemplate : String := "./src/templates/post-template.tsx"

/-- Routes `createPages` registers unconditionally before querying the
markdown nodes: `/404` and `/tags`, both with empty context. -/
def fixedPages : List Page :=
  [{ path := "/404", component := notFoundTemplate, context := RouteContext.empty },
   { path := "/tags", component := tagsListTemplate, context := RouteContext.empty }]

/-- Per-node branch of the `createPages` forEach: template `page` and
template `post` each register one route at the node's slug with context
`{slug}`; any other template registers nothing. -/
def nodeRoutes (n : PageNode) : List Page :=
  if n.template = some "page" then
    [{ path := n.slug, component := pageTemplate, context := RouteContext.slugCtx n.slug }]
  else if n.template = some "post" then
    [{ path := n.slug, component := postTemplate, context := RouteContext.slugCtx n.slug }]
  else []

/-- GraphQL filter `frontmatter: { draft: { ne: true } }`: keeps every node
whose draft flag is not literally `true` (absent counts as not true). -/
def nonDraft (n : PageNode) : Bool := !(n.draft == some true)

/-- Routes registered by the markdown forEach of `createPages`: the queried
(draft-filtered) nodes each contribute their `nodeRoutes`. -/
def markdownRoutes (nodes : List PageNode) : List Page :=
  (nodes.filter nonDraft).flatMap nodeRoutes

/-- Embedding of the `createPages` routine (gatsby/create-pages.js): the list
of routes it registers, in registration order — the fixed `/404` and `/tags`
routes, then one route per non-draft `page`/`post` markdown node.  The
trailing tag/posts pagination modules it awaits are separate files; the posts
pagination is modelled below as `createPostsPages`. -/
def createPages (nodes : List PageNode) : List Page :=
  fixedPages ++ markdownRoutes nodes

/-- Context of one generated paginated index page, the prev/next fields of
the repository's `PageContext` type (src/index.d.ts). -/
structure IndexPageContext where
  currentPage : Nat
  hasPrevPage : Bool
  hasNextPage : Bool
deriving DecidableEq

/-- Number of index pages for `postCount` posts at `pageSize` posts per
page: the ceiling of the division, computed as in `Math.ceil`. -/
def numIndexPages (postCount pageSize : Nat) : Nat := (postCount + pageSize - 1) / pageSize

/-- Modelled from the spec: the posts pagination module
(gatsby/pagination/create-posts-pages.js) is required from `createPages` but
its source file is not among the repository files available here.  Per the
spec it splits the set of post nodes into `ceil(postCount / pageSize)`
paginated index pages whose contexts carry `hasPrevPage` / `hasNextPage`
flags driving the previous/next links, the first page having no previous
link and the last page no next link. -/
def createPostsPages (postCount pageSize : Nat) : List IndexPageContext :=
  (List.range (numIndexPages postCount pageSize)).map (fun i =>
    { currentPage := i,
      hasPrevPage := decide (i ≠ 0),
      hasNextPage := decide (i ≠ numIndexPages postCount pageSize - 1) })

/-- Concrete node of the spec's worked example: frontmatter
`{tags: ["Ruby on Rails"], mainTag: "Ruby"}`. -/
def rubyExampleNode : RemarkNode :=
  { internalType := "MarkdownRemark",
    frontmatter := { slug := none, tags := some ["Ruby on Rails"], mainTag := some "Ruby" },
    relativeDirectory := "posts",
    filePath := "/posts/ruby-example/" }

example : kebabCase "Ruby on Rails" = "ruby-on-rails" := by decide

example : kebabCase "Ruby" = "ruby" := by decide

/-- Concrete node with an explicit frontmatter slug under the empty relative
directory. -/
def aboutNode : RemarkNode :=
  { internalType := "MarkdownRemark",
    frontmatter := { slug := some "about", tags := none, mainTag := none },
    relativeDirectory := "",
    filePath := "/about/" }

/-- Claim C1: for every MarkdownRemark node whose frontmatter declares an
explicit slug `s` and whose parent file node has relative directory `d`, the
node-creation hook attaches a `slug` field whose value is the concatenation
of "/", d, "/" and s, including when `d` is the empty string. -/
theorem slug_field_explicit (node : RemarkNode) (s d : String)
    (hty : node.internalType = "MarkdownRemark")
    (hslug : node.frontmatter.slug = some s)
    (hdir : node.relativeDirectory = d) :
    (onCreateNode node).lookup "slug" = some (FieldValue.str ("/" ++ d ++ "/" ++ s)) := by
  simp [onCreateNode, hty, hslug, hdir, List.lookup]

/-- Witness for C1 at a concrete node whose parent directory is the empty
string: the attached slug is "//about", the literal concatenation. -/
theorem slug_field_explicit_witness :
    (onCreateNode aboutNode).lookup "slug" = some (FieldValue.str "//about") := by
  have h := slug_field_explicit aboutNode "about" "" rfl rfl rfl
  simpa using h

/-- Claim C9: on every node whose internal type is not MarkdownRemark the
node-creation hook creates no field at all — its field list is empty, so the
node and all build state are left unchanged. -/
theorem onCreateNode_frame (node : RemarkNode)
    (hty : node.internalType ≠ "MarkdownRemark") :
    onCreateNode node = [] := by
  simp [onCreateNode, hty]

/-- Witness for C9 at a concrete File node. -/
theorem onCreateNode_frame_witness :
    onCreateNode
      { internalType := "File",
        frontmatter := { slug := none, tags := none, mainTag := none },
        relativeDirectory := "", filePath := "" } = [] :=
  onCreateNode_frame
    { internalType := "File",
      frontmatter := { slug := none, tags := none, mainTag := none },
      relativeDirectory := "", filePath := "" } (by decide)

/-- Claim C7: whatever the set of markdown nodes (including the empty set),
the page-creation routine registers a route at `/404` with the not-found
template and empty context, and a route at `/tags` with the tags-list
template and empty context. -/
theorem fixed_routes_always (nodes : List PageNode) :
    ({ path := "/404", component := notFoundTemplate,
       context := RouteContext.empty } : Page) ∈ createPages nodes ∧
    ({ path := "/tags", component := tagsListTemplate,
       context := RouteContext.empty } : Page) ∈ createPages nodes := by
  constructor <;> simp [createPages, fixedPages]

/-- Claim C10: a draft node, and a non-draft node whose frontmatter template
is neither `page` nor `post`, contribute no route: the page-creation routine
silently skips it and its output is as if the node were absent. -/
theorem skipped_nodes_no_route (nodes : List PageNode) (n : PageNode)
    (h : n.draft = some true ∨ (n.template ≠ some "page" ∧ n.template ≠ some "post")) :
    createPages (n :: nodes) = createPages nodes := by
  unfold createPages markdownRoutes
  rcases h with h | ⟨h1, h2⟩
  · rw [List.filter_cons]
    simp [nonDraft, h]
  · rw [List.filter_cons]
    cases hnd : nonDraft n
    · simp
    · simp [List.flatMap_cons, nodeRoutes, h1, h2]

/-- Concrete non-draft node with the template kind `writing.html`. -/
def writingNode : PageNode :=
  { template := some "writing.html", draft := none, slug := "/writing.html/" }

/-- Witness for C10 at a concrete `writing.html` node. -/
theorem skipped_nodes_no_route_witness :
    createPages [writingNode] = createPages [] :=
  skipped_nodes_no_route [] writingNode (Or.inr ⟨by decide, by decide⟩)

/-- Claim C8: the node-creation hook is total on MarkdownRemark nodes and
signals no error: when frontmatter `tags` is absent it attaches no
`tagSlugs` field, when `mainTag` is absent it attaches no `mainTagSlug`
field, and its only observable effect is attaching fields named `slug`,
`tagSlugs` or `mainTagSlug` to the given node. -/
theorem onCreateNode_total_skips (node : RemarkNode)
    (hty : node.internalType = "MarkdownRemark") :
    (node.frontmatter.tags = none → (onCreateNode node).lookup "tagSlugs" = none) ∧
    (node.frontmatter.mainTag = none → (onCreateNode node).lookup "mainTagSlug" = none) ∧
    (∀ f ∈ onCreateNode node, f.1 = "slug" ∨ f.1 = "tagSlugs" ∨ f.1 = "mainTagSlug") := by
  refine ⟨?_, ?_, ?_⟩
  · intro h
    cases hs : node.frontmatter.slug <;> cases hm : node.frontmatter.mainTag <;>
      simp [onCreateNode, hty, h, hs, hm, List.lookup]
  · intro h
    cases hs : node.frontmatter.slug <;> cases ht : node.frontmatter.tags <;>
      simp [onCreateNode, hty, h, hs, ht, List.lookup]
  · intro f hf
    simp only [onCreateNode, hty, reduceIte, List.mem_append] at hf
    rcases hf with (hf | hf) | hf
    · cases hs : node.frontmatter.slug <;> rw [hs] at hf <;> simp at hf <;> simp [hf]
    · cases ht : node.frontmatter.tags <;> rw [ht] at hf <;> simp at hf <;> simp [hf]
    · cases hm : node.frontmatter.mainTag <;> rw [hm] at hf
      · simp at hf
      · revert hf
        split <;> intro hf <;> simp at hf <;> simp [hf]

/-- Witness for C8 at a concrete node with neither tags nor a main tag. -/
theorem onCreateNode_total_skips_witness :
    (onCreateNode aboutNode).lookup "tagSlugs" = none ∧
    (onCreateNode aboutNode).lookup "mainTagSlug" = none := by
  have h := onCreateNode_total_skips aboutNode rfl
  exact ⟨h.1 rfl, h.2.1 rfl⟩

/-- Concrete draft post node. -/
def draftPostNode : PageNode :=
  { template := some "post", draft := some true, slug := "/posts/draft-post/" }

/-- Counterexample to claim C2 as stated: `draftPostNode` is a content node
of template kind `post`, yet the page-creation routine registers no route
for it (its output on the singleton set equals its output on the empty set,
and no registered route carries this node's slug context), because the
GraphQL query of the routine filters out nodes with `draft: true`. -/
theorem draft_post_node_skipped :
    draftPostNode.template = some "post" ∧
    createPages [draftPostNode] = createPages [] ∧
    (createPages [draftPostNode]).all
      (fun p => !(p.context == RouteContext.slugCtx "/posts/draft-post/")) = true := by
  refine ⟨rfl, rfl, by decide⟩

/-- Claim C2 (amended): every NON-DRAFT content node of template kind `post`
or `page` resolves to exactly one page route — wherever the node sits in the
input, the routine's output contains, for that node, exactly the one route
at the node's derived slug with context `{slug}` (no such node skipped, none
registered twice).  Draft nodes are excluded by the routine's query filter,
which the original claim did not account for. -/
theorem nonDraft_node_exactly_one_route (front back : List PageNode) (n : PageNode)
    (hdraft : n.draft ≠ some true)
    (htmpl : n.template = some "page" ∨ n.template = some "post") :
    createPages (front ++ n :: back) =
      fixedPages ++ markdownRoutes front ++
      [{ path := n.slug,
         component := if n.template = some "page" then pageTemplate else postTemplate,
         context := RouteContext.slugCtx n.slug }] ++
      markdownRoutes back := by
  unfold createPages markdownRoutes
  rw [List.filter_append, List.filter_cons]
  have hnd : nonDraft n = true := by
    simp [nonDraft, hdraft]
  rw [hnd]
  simp only [if_true, reduceIte]
  rw [List.flatMap_append, List.flatMap_cons]
  have hroute : nodeRoutes n =
      [{ path := n.slug,
         component := if n.template = some "page" then pageTemplate else postTemplate,
         context := RouteContext.slugCtx n.slug }] := by
    rcases htmpl with h | h <;> simp [nodeRoutes, h]
  rw [hroute]
  simp [List.append_assoc]

/-- Concrete non-draft page node. -/
def aboutPageNode : PageNode :=
  { template := some "page", draft := none, slug := "/pages/about/" }

/-- Witness for the amended C2 at a concrete singleton input. -/
theorem nonDraft_node_exactly_one_route_witness :
    createPages [aboutPageNode] =
      fixedPages ++
      [{ path := "/pages/about/", component := pageTemplate,
         context := RouteContext.slugCtx "/pages/about/" }] := by
  have h := nonDraft_node_exactly_one_route [] [] aboutPageNode (by decide) (Or.inl rfl)
  simpa [markdownRoutes] using h

/-- Concrete node with explicit frontmatter slug `hello` under directory
`posts`. -/
def dirANode : RemarkNode :=
  { internalType := "MarkdownRemark",
    frontmatter := { slug := some "hello", tags := none, mainTag := none },
    relativeDirectory := "posts",
    filePath := "/posts/hello/" }

/-- Concrete node with the same frontmatter as `dirANode` but under
directory `pages`. -/
def dirBNode : RemarkNode :=
  { internalType := "MarkdownRemark",
    frontmatter := { slug := some "hello", tags := none, mainTag := none },
    relativeDirectory := "pages",
    filePath := "/pages/hello/" }

/-- Counterexample to claim C4 as stated: two MarkdownRemark nodes with
identical frontmatter but different parent directories receive different
slug values, so the attached slug is not a function of the frontmatter
alone. -/
theorem slug_not_function_of_frontmatter :
    dirANode.frontmatter = dirBNode.frontmatter ∧
    (onCreateNode dirANode).lookup "slug" ≠ (onCreateNode dirBNode).lookup "slug" := by
  decide

/-- Claim C4 (amended): slug derivation is deterministic as a function of
the frontmatter TOGETHER WITH the file location (the parent file node's
relative directory and the location-derived file path): any two
MarkdownRemark nodes agreeing on these attach identical slug values, so
repeated builds on unchanged input are idempotent. -/
theorem slug_deterministic (n1 n2 : RemarkNode)
    (hfm : n1.frontmatter = n2.frontmatter)
    (hdir : n1.relativeDirectory = n2.relativeDirectory)
    (hfp : n1.filePath = n2.filePath)
    (hty1 : n1.internalType = "MarkdownRemark")
    (hty2 : n2.internalType = "MarkdownRemark") :
    (onCreateNode n1).lookup "slug" = (onCreateNode n2).lookup "slug" := by
  rcases n1 with ⟨ty1, fm1, dir1, fp1⟩
  rcases n2 with ⟨ty2, fm2, dir2, fp2⟩
  simp_all

/-- Witness for the amended C4: two runs of the hook on the same concrete
node location and frontmatter agree. -/
theorem slug_deterministic_witness :
    (onCreateNode dirANode).lookup "slug" = (onCreateNode dirANode).lookup "slug" :=
  slug_deterministic dirANode dirANode rfl rfl rfl rfl rfl

/-- Claim C3: on every MarkdownRemark node with a non-empty frontmatter tags
list, each derived tag path is `/tag/` followed by the kebab-cased tag and a
trailing slash; in particular the spec's example frontmatter
`{tags: ["Ruby on Rails"], mainTag: "Ruby"}` yields tag slugs
`["/tag/ruby-on-rails/"]` and main-tag slug `/tag/ruby/`. -/
theorem tag_paths_kebab (node : RemarkNode) (tags : List String)
    (hty : node.internalType = "MarkdownRemark")
    (htags : node.frontmatter.tags = some tags)
    (hne : tags ≠ []) :
    (onCreateNode node).lookup "tagSlugs" =
      some (FieldValue.strList (tags.map (fun t => "/tag/" ++ kebabCase t ++ "/"))) ∧
    (onCreateNode rubyExampleNode).lookup "tagSlugs" =
      some (FieldValue.strList ["/tag/ruby-on-rails/"]) ∧
    (onCreateNode rubyExampleNode).lookup "mainTagSlug" =
      some (FieldValue.str "/tag/ruby/") := by
  refine ⟨?_, by decide, by decide⟩
  cases hs : node.frontmatter.slug <;>
    simp [onCreateNode, hty, htags, hs, List.lookup]

/-- Witness for C3 applied at the spec's example node. -/
theorem tag_paths_kebab_witness :
    (onCreateNode rubyExampleNode).lookup "tagSlugs" =
      some (FieldValue.strList
        (["Ruby on Rails"].map (fun t => "/tag/" ++ kebabCase t ++ "/"))) :=
  (tag_paths_kebab rubyExampleNode ["Ruby on Rails"] rfl rfl (by decide)).1

/-- Claim C6: on every MarkdownRemark node whose frontmatter tags list is
present, the attached `tagSlugs` field is the ordered, index-aligned map of
the tags list: it has the same length, and its i-th entry is `/tag/` ++
kebab-case of the i-th tag ++ `/` (the alignment the Tags component relies
on when it pairs tags[i] with tagSlugs[i]). -/
theorem tag_slugs_aligned (node : RemarkNode) (tags : List String)
    (hty : node.internalType = "MarkdownRemark")
    (htags : node.frontmatter.tags = some tags) :
    (onCreateNode node).lookup "tagSlugs" =
      some (FieldValue.strList (tags.map (fun t => "/tag/" ++ kebabCase t ++ "/"))) ∧
    (tags.map (fun t => "/tag/" ++ kebabCase t ++ "/")).length = tags.length ∧
    ∀ i : Nat,
      (tags.map (fun t => "/tag/" ++ kebabCase t ++ "/"))[i]? =
        (tags[i]?).map (fun t => "/tag/" ++ kebabCase t ++ "/") := by
  refine ⟨?_, List.length_map _ _, fun i => List.getElem?_map _ _ _⟩
  cases hs : node.frontmatter.slug <;>
    simp [onCreateNode, hty, htags, hs, List.lookup]

/-- Witness for C6 at the spec's example node: the attached list aligns
entry for entry with the input tags. -/
theorem tag_slugs_aligned_witness :
    (onCreateNode rubyExampleNode).lookup "tagSlugs" =
      some (FieldValue.strList
        (["Ruby on Rails"].map (fun t => "/tag/" ++ kebabCase t ++ "/"))) ∧
    (["Ruby on Rails"].map (fun t => "/tag/" ++ kebabCase t ++ "/")).length = 1 :=
  ⟨(tag_slugs_aligned rubyExampleNode ["Ruby on Rails"] rfl rfl).1,
   (tag_slugs_aligned rubyExampleNode ["Ruby on Rails"] rfl rfl).2.1⟩

/-- Ceiling of a natural division, computed the `Math.ceil` way: for a
positive divisor, `(a + b - 1) / b` equals the ceiling of the rational
`a / b`. -/
theorem add_pred_div_eq_ceil (a b : Nat) (hb : 0 < b) :
    (a + b - 1) / b = Nat.ceil ((a : ℚ) / (b : ℚ)) := by
  have hbq : (0 : ℚ) < (b : ℚ) := by exact_mod_cast hb
  apply le_antisymm
  · rw [Nat.div_le_iff_le_mul_add_pred hb]
    have h1 : (a : ℚ) / (b : ℚ) ≤ (Nat.ceil ((a : ℚ) / (b : ℚ)) : ℚ) := Nat.le_ceil _
    rw [div_le_iff₀ hbq] at h1
    have hc : a ≤ b * Nat.ceil ((a : ℚ) / (b : ℚ)) := by
      rw [mul_comm]
      exact_mod_cast h1
    have hrw : a + b - 1 = a + (b - 1) := by omega
    rw [hrw]
    exact Nat.add_le_add hc (Nat.le_refl _)
  · rw [Nat.ceil_le, div_le_iff₀ hbq]
    have h3 : a ≤ ((a + b - 1) / b) * b := by
      rcases Nat.eq_zero_or_pos a with h | h
      · simp [h]
      · have h4 : a - 1 < ((a - 1) / b + 1) * b := by
          have h7 : a - 1 < (a - 1) / b * b + b := Nat.lt_div_mul_add hb
          calc a - 1 < (a - 1) / b * b + b := h7
            _ = ((a - 1) / b + 1) * b := by ring
        have h5 : (a + b - 1) / b = (a - 1) / b + 1 := by
          have h6 : a + b - 1 = (a - 1) + b := by omega
          rw [h6, Nat.add_div_right _ hb]
        rw [h5]
        exact Nat.le_of_pred_lt h4
    exact_mod_cast h3

/-- Claim C5: for every post count and every positive page size, the posts
pagination generates exactly the ceiling of postCount / pageSize index
pages, the first generated page carries no previous-page link and the last
generated page carries no next-page link. -/
theorem pagination_count_and_links (postCount pageSize : Nat) (hps : 0 < pageSize) :
    (createPostsPages postCount pageSize).length =
      Nat.ceil ((postCount : ℚ) / (pageSize : ℚ)) ∧
    (∀ p, (createPostsPages postCount pageSize).head? = some p →
      p.hasPrevPage = false) ∧
    (∀ p, (createPostsPages postCount pageSize).getLast? = some p →
      p.hasNextPage = false) := by
  refine ⟨?_, ?_, ?_⟩
  · simp only [createPostsPages, List.length_map, List.length_range, numIndexPages]
    exact add_pred_div_eq_ceil postCount pageSize hps
  · intro p hp
    unfold createPostsPages at hp
    cases h : numIndexPages postCount pageSize with
    | zero => rw [h] at hp; simp at hp
    | succ m =>
      rw [h, List.range_succ_eq_map, List.map_cons, List.head?_cons,
        Option.some.injEq] at hp
      rw [← hp]
      simp
  · intro p hp
    unfold createPostsPages at hp
    cases h : numIndexPages postCount pageSize with
    | zero => rw [h] at hp; simp at hp
    | succ m =>
      rw [h, List.range_succ, List.map_append, List.map_cons, List.map_nil,
        List.getLast?_concat, Option.some.injEq] at hp
      rw [← hp]
      simp

/-- Witness for C5 at five posts and page size two: three index pages. -/
theorem pagination_count_and_links_witness :
    0 < 2 ∧
    (createPostsPages 5 2).length = Nat.ceil ((5 : ℚ) / (2 : ℚ)) ∧
    (createPostsPages 5 2).length = 3 :=
  ⟨by decide, (pagination_count_and_links 5 2 (by decide)).1, by decide⟩
